import Mathlib

/-!
A shallow embedding of the helmboot bootstrap CLI's resolver, exporter and
boot-runner logic, with theorems checking the specification's claims about it.

External collaborators (Kubernetes clients, file system, git, helm, the
`jx` library) are modelled as explicit environments of effect results that
the embedded functions consume, so that each embedded function is a pure
Lean function of its Go arguments and the environment.
-/

namespace Helmboot

/-- The GKE provider constant (`cloud.GKE` from the jx library). -/
def cloudGKE : String := "gke"

/-- Modelled from the spec: `secretmgr.KindLocal`, the enumerated tag for the
local secret-manager backend; the `secretmgr` package is part of this
repository but its source is not included. -/
def KindLocal : String := "local"

/-- Modelled from the spec: `secretmgr.KindGoogleSecretManager`, the
enumerated tag for the Google cloud secret-manager backend; the `secretmgr`
package is part of this repository but its source is not included. -/
def KindGoogleSecretManager : String := "google-secret-manager"

/-- Modelled from the spec: `secretmgr.LocalSecret`, the well-known name of
the marker/local Secret probed in-cluster; the `secretmgr` package is part
of this repository but its source is not included. The concrete value is
immaterial to the claims, which only use it as an opaque name. -/
def LocalSecret : String := "local-secret"

/-- Modelled from the spec: `secretmgr.LocalSecretKey`, the well-known
raw-YAML key inside the secret data; the `secretmgr` package is part of this
repository but its source is not included. The concrete value is immaterial
to the claims, which only use it as an opaque key. -/
def LocalSecretKey : String := "secrets.yaml"

/-- The cluster section of a requirements document (`config.RequirementsConfig.Cluster`);
only the fields the embedded code reads. -/
structure ClusterConfig where
  provider : String
  clusterName : String
deriving Repr, DecidableEq

/-- A requirements document (`config.RequirementsConfig`); only the fields
the embedded code reads. -/
structure RequirementsConfig where
  cluster : ClusterConfig
deriving Repr, DecidableEq

/-- Outcome of `kubeClient.CoreV1().Secrets(ns).Get(name, ...)`: the secret
exists, the API reports a not-found error, or it reports some other error. -/
inductive GetSecretResult where
  | found
  | notFound
  | otherErr (msg : String)
deriving Repr, DecidableEq

/-- Environment of Kubernetes-client effects used by `resolveKind`:
`createKubeClient` yields the namespace (or an error), `getSecret ns name`
is the result of the marker-secret lookup. -/
structure KubeEnv where
  createKubeClient : Except String String
  getSecret : String → String → GetSecretResult

/-- The `KindResolver` receiver fields read by the embedded code
(the factory is folded into the effect environments). -/
structure KindResolver where
  kind : String
  dir : String
deriving Repr, DecidableEq

/-- Embeds `KindResolver.resolveKind` from `pkg/secretmgr/factory` (src/unnamed/part_000
lines 52-71). Returns the resolved kind (or error) together with the list of
`(namespace, name)` secret lookups performed, so that claims about the lookup
being skipped are statable. -/
def KindResolver.resolveKind (requirements : RequirementsConfig) (env : KubeEnv) :
    Except String String × List (String × String) :=
  if requirements.cluster.provider = cloudGKE then
    match env.createKubeClient with
    | Except.error e => (Except.error ("failed to create Kubernetes client: " ++ e), [])
    | Except.ok ns =>
      let name := LocalSecret
      match env.getSecret ns name with
      | GetSecretResult.otherErr e =>
          (Except.error ("failed to get Secret " ++ name ++ " in namespace " ++ ns ++ ": " ++ e),
           [(ns, name)])
      | GetSecretResult.notFound =>
          (Except.ok KindGoogleSecretManager, [(ns, name)])
      | GetSecretResult.found =>
          (Except.ok KindLocal, [(ns, name)])
  else
    (Except.ok KindLocal, [])

/-- The team settings embedded in the dev Environment resource, modelled by
the outcome of the external `config.GetRequirementsConfigFromTeamSettings`
parse: a parsed document, no embedded requirements, or an unmarshal error. -/
inductive TeamSettings where
  | parsed (req : RequirementsConfig)
  | absent
  | unparseable (msg : String)
deriving Repr, DecidableEq

/-- Embeds `config.GetRequirementsConfigFromTeamSettings` (external jx library),
returning the possibly-nil requirements pointer or the unmarshal error. -/
def getRequirementsConfigFromTeamSettings : TeamSettings → Except String (Option RequirementsConfig)
  | TeamSettings.parsed r => Except.ok (some r)
  | TeamSettings.absent => Except.ok none
  | TeamSettings.unparseable e => Except.error e

/-- The dev Environment custom resource; only the fields the embedded code
reads (`Spec.TeamSettings` and `Spec.Source.URL`). -/
structure DevEnv where
  teamSettings : TeamSettings
  sourceURL : String
deriving Repr, DecidableEq

/-- Outcome of `kube.GetDevEnvironment`: a not-found error, another error,
or success with a possibly-nil dev Environment pointer. -/
inductive DevResult where
  | notFoundErr
  | otherErr (msg : String)
  | ok (dev : Option DevEnv)
deriving Repr, DecidableEq

/-- Environment of jx-client / file-system / git effects used by
requirements resolution: `createJXClient` yields the namespace,
`getDevEnvironment ns` the dev Environment lookup result,
`loadRequirementsConfig dir` the `(requirements, err)` pair returned by the
external `config.LoadRequirementsConfig`, and `findGitURLFromDir` the git
URL discovered from the working directory. -/
structure ClusterEnv where
  createJXClient : Except String String
  getDevEnvironment : String → DevResult
  loadRequirementsConfig : String → Option RequirementsConfig × Option String
  findGitURLFromDir : Except String String

/-- The `(requirements, namespace, error)` triple returned by
`KindResolver.resolveRequirements`. -/
structure ResolveReqResult where
  req : Option RequirementsConfig
  ns : String
  err : Option String
deriving Repr, DecidableEq

/-- The file-loading fallback inlined at the end of
`KindResolver.resolveRequirements` (src/unnamed/part_000 lines 92-96):
load the requirements YAML from `r.dir`, wrapping any error. -/
def KindResolver.loadRequirementsFallback (r : KindResolver) (env : ClusterEnv) (ns : String) :
    ResolveReqResult :=
  match env.loadRequirementsConfig r.dir with
  | (req, some e) =>
      ⟨req, ns, some ("failed to requirements YAML file from " ++ r.dir ++ ": " ++ e)⟩
  | (req, none) => ⟨req, ns, none⟩

/-- Embeds `KindResolver.resolveRequirements` (src/unnamed/part_000 lines 73-97):
try the dev Environment's team settings first; a non-"not found" lookup
error or an unmarshal error is fatal; otherwise fall back to loading the
requirements YAML file from `r.dir`. -/
def KindResolver.resolveRequirements (r : KindResolver) (env : ClusterEnv) : ResolveReqResult :=
  match env.createJXClient with
  | Except.error e => ⟨none, "", some ("failed to create JX Client: " ++ e)⟩
  | Except.ok ns =>
    match env.getDevEnvironment ns with
    | DevResult.otherErr e =>
        ⟨none, ns, some ("failed to find the 'dev' Environment resource: " ++ e)⟩
    | DevResult.notFoundErr => KindResolver.loadRequirementsFallback r env ns
    | DevResult.ok none => KindResolver.loadRequirementsFallback r env ns
    | DevResult.ok (some dev) =>
      match getRequirementsConfigFromTeamSettings dev.teamSettings with
      | Except.error e =>
          ⟨none, ns,
           some ("failed to unmarshal requirements from 'dev' Environment in namespace "
                 ++ ns ++ ": " ++ e)⟩
      | Except.ok (some requirements) => ⟨some requirements, ns, none⟩
      | Except.ok none => KindResolver.loadRequirementsFallback r env ns

/-- What `CreateSecretManager` hands to the external factory
`NewSecretManager`: the resolved kind and the resolved requirements. -/
structure CreateSMResult where
  kind : String
  req : RequirementsConfig
deriving Repr, DecidableEq

/-- Embeds `KindResolver.CreateSecretManager` (src/unnamed/part_000 lines 24-50):
resolve requirements, then (when no kind was supplied) resolve the kind,
defaulting an empty resolved kind to the local kind, and pass kind and
requirements to the factory. -/
def KindResolver.createSecretManager (r : KindResolver) (jxEnv : ClusterEnv) (kubeEnv : KubeEnv) :
    Except String CreateSMResult :=
  let rr := KindResolver.resolveRequirements r jxEnv
  match rr.err with
  | some e => Except.error e
  | none =>
    match rr.req with
    | none =>
        Except.error ("failed to resolve the jx-requirements.yml from the file system or the 'dev' Environment in namespace " ++ rr.ns)
    | some requirements =>
      if r.kind = "" then
        match (KindResolver.resolveKind requirements kubeEnv).1 with
        | Except.error e => Except.error e
        | Except.ok k =>
          let k2 := if k = "" then KindLocal else k
          Except.ok ⟨k2, requirements⟩
      else
        Except.ok ⟨r.kind, requirements⟩

/-- Variant of `createSecretManager` with the empty-kind fallback branch
removed, written to the spec's claim that the branch is unreachable; compared
with `createSecretManager` to prove the unreachability. -/
def KindResolver.createSecretManagerNoDefault (r : KindResolver) (jxEnv : ClusterEnv)
    (kubeEnv : KubeEnv) : Except String CreateSMResult :=
  let rr := KindResolver.resolveRequirements r jxEnv
  match rr.err with
  | some e => Except.error e
  | none =>
    match rr.req with
    | none =>
        Except.error ("failed to resolve the jx-requirements.yml from the file system or the 'dev' Environment in namespace " ++ rr.ns)
    | some requirements =>
      if r.kind = "" then
        match (KindResolver.resolveKind requirements kubeEnv).1 with
        | Except.error e => Except.error e
        | Except.ok k => Except.ok ⟨k, requirements⟩
      else
        Except.ok ⟨r.kind, requirements⟩

/-- The `(requirements, gitURL, error)` triple returned by
`HelmBootOptions.findRequirementsAndGitURL`. -/
structure FindReqResult where
  req : Option RequirementsConfig
  gitURL : String
  err : Option String
deriving Repr, DecidableEq

/-- The `HelmBootOptions` receiver fields read by the embedded code (the
`--git-url` flag and the working directory). -/
structure HelmBootOptions where
  gitURL : String
  dir : String
deriving Repr, DecidableEq

/-- The final git-URL step of `findRequirementsAndGitURL`
(src/pkg/cmd/run/run.go lines 247-254): when no git URL is known yet,
discover it from the working directory. -/
def findRequirementsGitURLFinish (req : Option RequirementsConfig) (gitURL : String)
    (env : ClusterEnv) : FindReqResult :=
  if gitURL = "" then
    match env.findGitURLFromDir with
    | Except.error e => ⟨req, "", some e⟩
    | Except.ok u => ⟨req, u, none⟩
  else ⟨req, gitURL, none⟩

/-- Embeds `HelmBootOptions.findRequirementsAndGitURL` (src/pkg/cmd/run/run.go lines
213-255): read the dev Environment's source URL and team-settings
requirements (an unmarshal error is only debug-logged, leaving requirements
nil), honour the `--git-url` flag, fall back to the requirements YAML file
when requirements are still nil, and discover the git URL from the directory
when still empty. -/
def HelmBootOptions.findRequirementsAndGitURL (o : HelmBootOptions) (env : ClusterEnv) :
    FindReqResult :=
  match env.createJXClient with
  | Except.error e => ⟨none, "", some e⟩
  | Except.ok ns =>
    match env.getDevEnvironment ns with
    | DevResult.otherErr e => ⟨none, "", some e⟩
    | dres =>
      let dev : Option DevEnv :=
        match dres with
        | DevResult.ok d => d
        | _ => none
      let gitURL0 : String :=
        match dev with
        | some d => d.sourceURL
        | none => ""
      let req0 : Option RequirementsConfig :=
        match dev with
        | some d =>
          match getRequirementsConfigFromTeamSettings d.teamSettings with
          | Except.ok r => r
          | Except.error _ => none
        | none => none
      let gitURL1 := if o.gitURL ≠ "" then o.gitURL else gitURL0
      match req0 with
      | some requirements => findRequirementsGitURLFinish (some requirements) gitURL1 env
      | none =>
        match env.loadRequirementsConfig o.dir with
        | (reqL, some e) => ⟨reqL, gitURL1, some e⟩
        | (reqL, none) => findRequirementsGitURLFinish reqL gitURL1 env

/-- Outcome of `WaitForReadyPodForSelectorLabels`: an error, or a pod name
(possibly empty). -/
inductive WaitPodResult where
  | err (msg : String)
  | ok (pod : String)
deriving Repr, DecidableEq

/-- Environment of effects used by `tailJobLogs`, indexed by loop iteration:
`waitForReadyPod i` is the pod-wait outcome at iteration `i`, and
`tailLogs i pod` is the error value (`some msg`, or `none` for a nil error)
returned by `TailLogs` at iteration `i`. -/
structure TailEnv where
  createKubeClient : Except String String
  waitForReadyPod : Nat → WaitPodResult
  tailLogs : Nat → String → Option String

/-- The infinite `for` loop of `tailJobLogs` (src/pkg/cmd/run/run.go lines
167-183), with fuel making nontermination observable: `none` means the loop
is still running after `fuel` iterations; `some r` means the loop returned
`r` (where `Except.ok ()` embeds a nil Go error return). -/
def tailLoop (env : TailEnv) (ns : String) : Nat → Nat → Option (Except String Unit)
  | 0, _ => none
  | Nat.succ fuel, i =>
    match env.waitForReadyPod i with
    | WaitPodResult.err e => some (Except.error e)
    | WaitPodResult.ok pod =>
      if pod = "" then
        some (Except.error ("No pod found for namespace " ++ ns ++ " with selector map[job-name:jx-boot]"))
      else
        match env.tailLogs i pod with
        | some _ => some (Except.ok ())
        | none => tailLoop env ns fuel (i + 1)

/-- Embeds `HelmBootOptions.tailJobLogs` (src/pkg/cmd/run/run.go lines 155-184):
create the Kubernetes client, then run the log-tailing loop. -/
def HelmBootOptions.tailJobLogs (env : TailEnv) (fuel : Nat) : Option (Except String Unit) :=
  match env.createKubeClient with
  | Except.error e => some (Except.error e)
  | Except.ok ns => tailLoop env ns fuel 0

/-- A YAML value tree: the `map[string]interface{}` trees the exporter hands
to the external `yaml.Marshal` (string leaves and string-keyed maps, the
only shapes the embedded code builds). -/
inductive YVal where
  | str (s : String)
  | map (entries : List (String × YVal))

/-- Association-list lookup on a YAML map (Go map read). -/
def lookupYAssoc : List (String × YVal) → String → Option YVal
  | [], _ => none
  | (k, v) :: rest, key => if k = key then some v else lookupYAssoc rest key

/-- Association-list update on a YAML map (Go map assignment). -/
def setYAssoc : List (String × YVal) → String → YVal → List (String × YVal)
  | [], k, v => [(k, v)]
  | (k0, v0) :: rest, k, v =>
    if k0 = k then (k, v) :: rest else (k0, v0) :: setYAssoc rest k v

/-- Go `strings.Split` with a one-character separator (every separator the
source passes — `"."`, `":"`, `"\n"` — is one character), implemented
structurally over the character list so concrete instances evaluate. -/
def stringsSplitAux (sep : Char) : List Char → List Char → List String
  | [], acc => [String.mk acc.reverse]
  | c :: rest, acc =>
    if c = sep then String.mk acc.reverse :: stringsSplitAux sep rest []
    else stringsSplitAux sep rest (c :: acc)

/-- Go `strings.Split(s, sep)` for a one-character separator. -/
def stringsSplit (s : String) (sep : Char) : List String :=
  stringsSplitAux sep s.data []

/-- The recursion of Go `strings.SplitN(s, sep, 2)`: accumulate until the
first separator occurrence. -/
def stringsSplitN2Aux (sep : Char) : List Char → List Char → Option (String × String)
  | [], _ => none
  | c :: rest, acc =>
    if c = sep then some (String.mk acc.reverse, String.mk rest)
    else stringsSplitN2Aux sep rest (c :: acc)

/-- Go `strings.SplitN(s, sep, 2)` for a one-character separator: `none`
when the separator does not occur (one part), otherwise the parts before and
after its first occurrence. -/
def stringsSplitN2 (s : String) (sep : Char) : Option (String × String) :=
  stringsSplitN2Aux sep s.data []

/-- Go `strings.TrimSpace`: drop whitespace from both ends. -/
def stringsTrimSpace (s : String) : String :=
  String.mk (((s.data.dropWhile Char.isWhitespace).reverse.dropWhile Char.isWhitespace).reverse)

/-- Go `strings.HasPrefix(s, "#")` as used by `loadSecretFile`: does the
string start with the comment character. -/
def startsWithHash (s : String) : Bool :=
  match s.data with
  | c :: _ => c = '#'
  | [] => false

/-- Modelled from the spec: the recursion of the external
`util.SetMapValueViaPath` over an already-split dotted path — descend through
(or create) nested maps for every path segment but the last and set the leaf
value at the last segment, so that key `a.b.c` becomes `a: {b: {c: value}}`. -/
def setMapValueViaPathList : List (String × YVal) → List String → String → List (String × YVal)
  | m, [], _ => m
  | m, [p], value => setYAssoc m p (YVal.str value)
  | m, p :: q :: rest, value =>
    let sub : List (String × YVal) :=
      match lookupYAssoc m p with
      | some (YVal.map entries) => entries
      | _ => []
    setYAssoc m p (YVal.map (setMapValueViaPathList sub (q :: rest) value))

/-- Modelled from the spec: `util.SetMapValueViaPath` (external jx library) —
set `value` at dotted `path` inside map `m` using dotted-path semantics. -/
def setMapValueViaPath (m : List (String × YVal)) (path : String) (value : String) :
    List (String × YVal) :=
  setMapValueViaPathList m (stringsSplit path '.') value

/-- Association-list read with Go's zero-value semantics: a missing key
yields the empty byte string, like `secretData[key]` on a Go map. -/
def lookupData : List (String × String) → String → String
  | [], _ => ""
  | (k, v) :: rest, key => if k = key then v else lookupData rest key

/-- What `generateSecretsYAML` writes to the output file: either the raw
bytes of the well-known key, or the YAML tree handed to `yaml.Marshal`. -/
inductive SecretsOutput where
  | raw (content : String)
  | yamlDoc (values : YVal)

/-- The expansion loop of `generateSecretsYAML`: fold every key/value pair
of the secret data into a nested map via `SetMapValueViaPath`. -/
def expandSecrets (secretData : List (String × String)) : List (String × YVal) :=
  secretData.foldl (fun m kv => setMapValueViaPath m kv.1 kv.2) []

/-- Embeds `generateSecretsYAML` (src/unnamed/part_000 lines 248-272): when the
well-known raw-YAML key has a non-empty value, write it verbatim; otherwise
expand every key by dotted path under a single `secrets` root. -/
def generateSecretsYAML (secretData : List (String × String)) : SecretsOutput :=
  let data := lookupData secretData LocalSecretKey
  if data.length = 0 then
    SecretsOutput.yamlDoc (YVal.map [("secrets", YVal.map (expandSecrets secretData))])
  else
    SecretsOutput.raw data

/-- Outcome of the in-cluster Secret read in `YAMLOptions.Run`: the data
map, a not-found error, or another error. -/
inductive SecretDataResult where
  | ok (data : List (String × String))
  | notFound
  | err (msg : String)
deriving Repr, DecidableEq

/-- Environment of effects used by the `secrets yaml` exporter: the
Kubernetes client, the `JXL_SECRET_FILE` / `JXL_SECRET_NAME` /
`JX_SECRETS_YAML` environment variables, the file system, and the in-cluster
Secret read. -/
structure SecretsEnv where
  createKubeClient : Except String String
  jxlSecretFile : String
  jxlSecretName : String
  jxSecretsYaml : String
  fileExists : String → Except String Bool
  readFile : String → Except String String
  getSecret : String → String → SecretDataResult

/-- Association-list update with string values (Go map assignment in
`loadSecretFile`). -/
def setAssocStr : List (String × String) → String → String → List (String × String)
  | [], k, v => [(k, v)]
  | (k0, v0) :: rest, k, v =>
    if k0 = k then (k, v) :: rest else (k0, v0) :: setAssocStr rest k v

/-- One iteration of the line loop in `loadSecretFile`: skip blank and `#`
lines, split on the first colon, and record the trimmed key/value pair. -/
def parseSecretLine (acc : List (String × String)) (l : String) : List (String × String) :=
  let line := stringsTrimSpace l
  if line = "" then acc
  else if startsWithHash line then acc
  else
    match stringsSplitN2 line ':' with
    | some (k, v) => setAssocStr acc (stringsTrimSpace k) (stringsTrimSpace v)
    | none => acc

/-- The parsing part of `loadSecretFile`: fold `parseSecretLine` over the
newline-split file content. -/
def parseSecretLines (content : String) : List (String × String) :=
  (stringsSplit content '\n').foldl parseSecretLine []

/-- Embeds `loadSecretFile` (src/unnamed/part_000 lines 220-246): check existence,
read the file, and parse `key: value` lines. -/
def loadSecretFile (env : SecretsEnv) (fileName : String) :
    Except String (List (String × String)) :=
  match env.fileExists fileName with
  | Except.error e =>
      Except.error ("failed to check if secret file " ++ fileName ++ " exists: " ++ e)
  | Except.ok false => Except.error ("secret file " ++ fileName ++ " does not exist")
  | Except.ok true =>
    match env.readFile fileName with
    | Except.error e =>
        Except.error ("failed to load secret file " ++ fileName ++ " exists: " ++ e)
    | Except.ok content => Except.ok (parseSecretLines content)

/-- The `YAMLOptions` receiver fields read by the embedded code. -/
structure YAMLOptions where
  secretName : String
  secretFile : String
  outFile : String
deriving Repr, DecidableEq

/-- The effective secret file name of `YAMLOptions.Run`: the `--file` flag,
defaulted from `JXL_SECRET_FILE`. -/
def YAMLOptions.effSecretFile (o : YAMLOptions) (env : SecretsEnv) : String :=
  if o.secretFile = "" then env.jxlSecretFile else o.secretFile

/-- The effective Secret name of `YAMLOptions.Run`: the option, defaulted
from `JXL_SECRET_NAME`, defaulted to the well-known local Secret name. -/
def YAMLOptions.effSecretName (o : YAMLOptions) (env : SecretsEnv) : String :=
  if o.secretName ≠ "" then o.secretName
  else if env.jxlSecretName ≠ "" then env.jxlSecretName
  else LocalSecret

/-- Embeds `YAMLOptions.Run` (src/unnamed/part_000 lines 164-217), with the file
writes it performs made explicit: returns the error result (`none` for
success) together with the list of `(fileName, content)` writes performed,
so that "the output file is never written" is statable. -/
def YAMLOptions.run (o : YAMLOptions) (env : SecretsEnv) :
    Option String × List (String × SecretsOutput) :=
  match env.createKubeClient with
  | Except.error e => (some e, [])
  | Except.ok ns =>
    let secretFile := YAMLOptions.effSecretFile o env
    let dataE : Except String (List (String × String)) :=
      if secretFile ≠ "" then
        match loadSecretFile env secretFile with
        | Except.error e => Except.error e
        | Except.ok data =>
          if data.length = 0 then Except.error ("no data for secret file " ++ secretFile)
          else Except.ok data
      else
        let secretName := YAMLOptions.effSecretName o env
        match env.getSecret ns secretName with
        | SecretDataResult.notFound =>
            Except.error ("could not read Secret " ++ secretName ++ " in namespace " ++ ns)
        | SecretDataResult.err e =>
            Except.error ("failed to read Secret " ++ secretName ++ " in namespace " ++ ns ++ ": " ++ e)
        | SecretDataResult.ok data =>
          if data.length = 0 then
            Except.error ("no data for Secret " ++ secretName ++ " in namespace " ++ ns)
          else Except.ok data
    match dataE with
    | Except.error e => (some e, [])
    | Except.ok data =>
      let outFile := if o.outFile = "" then env.jxSecretsYaml else o.outFile
      if outFile = "" then (some "Missing option: out", [])
      else (none, [(outFile, generateSecretsYAML data)])

end Helmboot

namespace Helmboot

/-- C1: for a GKE-provider requirements document, a "not found" marker-secret
lookup makes `resolveKind` return the Google secret-manager kind with no error. -/
theorem resolveKind_gke_notFound_returns_gsm
    (requirements : RequirementsConfig) (env : KubeEnv) (ns : String)
    (hp : requirements.cluster.provider = cloudGKE)
    (hc : env.createKubeClient = Except.ok ns)
    (hs : env.getSecret ns LocalSecret = GetSecretResult.notFound) :
    (KindResolver.resolveKind requirements env).1 = Except.ok KindGoogleSecretManager := by
  simp [KindResolver.resolveKind, hp, hc, hs]

/-- Witness for C1 at a concrete GKE requirements document and environment. -/
theorem resolveKind_gke_notFound_returns_gsm_witness :
    (KindResolver.resolveKind ⟨⟨"gke", "c1"⟩⟩
      ⟨Except.ok "jx", fun _ _ => GetSecretResult.notFound⟩).1 =
      Except.ok KindGoogleSecretManager :=
  resolveKind_gke_notFound_returns_gsm ⟨⟨"gke", "c1"⟩⟩
    ⟨Except.ok "jx", fun _ _ => GetSecretResult.notFound⟩ "jx" rfl rfl rfl

/-- C2: for a GKE-provider requirements document, when the marker secret
exists, `resolveKind` returns the local kind with no error. -/
theorem resolveKind_gke_found_returns_local
    (requirements : RequirementsConfig) (env : KubeEnv) (ns : String)
    (hp : requirements.cluster.provider = cloudGKE)
    (hc : env.createKubeClient = Except.ok ns)
    (hs : env.getSecret ns LocalSecret = GetSecretResult.found) :
    (KindResolver.resolveKind requirements env).1 = Except.ok KindLocal := by
  simp [KindResolver.resolveKind, hp, hc, hs]

/-- Witness for C2 at a concrete GKE requirements document and environment. -/
theorem resolveKind_gke_found_returns_local_witness :
    (KindResolver.resolveKind ⟨⟨"gke", "c2"⟩⟩
      ⟨Except.ok "jx", fun _ _ => GetSecretResult.found⟩).1 =
      Except.ok KindLocal :=
  resolveKind_gke_found_returns_local ⟨⟨"gke", "c2"⟩⟩
    ⟨Except.ok "jx", fun _ _ => GetSecretResult.found⟩ "jx" rfl rfl rfl

/-- C3: for a non-GKE provider, `resolveKind` returns the local kind with no
error whatever the environment says (so regardless of secret presence), and
performs no secret lookup (the query trace is empty). -/
theorem resolveKind_nonGke_returns_local_no_lookup
    (requirements : RequirementsConfig) (env : KubeEnv)
    (hp : requirements.cluster.provider ≠ cloudGKE) :
    KindResolver.resolveKind requirements env = (Except.ok KindLocal, []) := by
  simp [KindResolver.resolveKind, hp]

/-- Witness for C3 at a concrete non-GKE requirements document, in an
environment where the marker secret exists and in one where it does not. -/
theorem resolveKind_nonGke_returns_local_no_lookup_witness :
    KindResolver.resolveKind ⟨⟨"eks", "c3"⟩⟩
        ⟨Except.ok "jx", fun _ _ => GetSecretResult.found⟩ = (Except.ok KindLocal, []) ∧
    KindResolver.resolveKind ⟨⟨"eks", "c3"⟩⟩
        ⟨Except.ok "jx", fun _ _ => GetSecretResult.notFound⟩ = (Except.ok KindLocal, []) :=
  ⟨resolveKind_nonGke_returns_local_no_lookup ⟨⟨"eks", "c3"⟩⟩
      ⟨Except.ok "jx", fun _ _ => GetSecretResult.found⟩ (by decide),
   resolveKind_nonGke_returns_local_no_lookup ⟨⟨"eks", "c3"⟩⟩
      ⟨Except.ok "jx", fun _ _ => GetSecretResult.notFound⟩ (by decide)⟩

/-- C9: for a GKE-provider requirements document, a marker-secret lookup
error other than "not found" makes `resolveKind` return that error wrapped
with context, and no kind. -/
theorem resolveKind_gke_otherErr_fails
    (requirements : RequirementsConfig) (env : KubeEnv) (ns e : String)
    (hp : requirements.cluster.provider = cloudGKE)
    (hc : env.createKubeClient = Except.ok ns)
    (hs : env.getSecret ns LocalSecret = GetSecretResult.otherErr e) :
    (KindResolver.resolveKind requirements env).1 =
      Except.error ("failed to get Secret " ++ LocalSecret ++ " in namespace " ++ ns ++ ": " ++ e) := by
  simp [KindResolver.resolveKind, hp, hc, hs]

/-- Witness for C9 at a concrete GKE requirements document and a lookup that
fails with a non-"not found" error. -/
theorem resolveKind_gke_otherErr_fails_witness :
    (KindResolver.resolveKind ⟨⟨"gke", "c9"⟩⟩
      ⟨Except.ok "jx", fun _ _ => GetSecretResult.otherErr "forbidden"⟩).1 =
      Except.error ("failed to get Secret " ++ LocalSecret ++ " in namespace jx: forbidden") :=
  resolveKind_gke_otherErr_fails ⟨⟨"gke", "c9"⟩⟩
    ⟨Except.ok "jx", fun _ _ => GetSecretResult.otherErr "forbidden"⟩ "jx" "forbidden" rfl rfl rfl

/-- Helper: the only kinds `resolveKind` can return successfully are the
local kind and the Google secret-manager kind. -/
lemma resolveKind_ok_cases (requirements : RequirementsConfig) (env : KubeEnv) (k : String)
    (h : (KindResolver.resolveKind requirements env).1 = Except.ok k) :
    k = KindLocal ∨ k = KindGoogleSecretManager := by
  unfold KindResolver.resolveKind at h
  split at h
  · split at h
    · simp at h
    · dsimp only at h
      split at h
      · simp at h
      · simp at h; right; exact h.symm
      · simp at h; left; exact h.symm
  · simp at h; left; exact h.symm

/-- C10: a successful `resolveKind` always yields one of the two non-empty
kind constants, the empty-kind fallback branch of `CreateSecretManager` is
unreachable (removing it does not change the function), and a successful
`CreateSecretManager` always passes a non-empty kind to the factory. -/
theorem resolveKind_nonEmpty_fallback_unreachable :
    (∀ (requirements : RequirementsConfig) (env : KubeEnv) (k : String),
        (KindResolver.resolveKind requirements env).1 = Except.ok k →
        (k = KindLocal ∨ k = KindGoogleSecretManager) ∧ k ≠ "") ∧
    (∀ (r : KindResolver) (jxEnv : ClusterEnv) (kubeEnv : KubeEnv),
        KindResolver.createSecretManager r jxEnv kubeEnv =
          KindResolver.createSecretManagerNoDefault r jxEnv kubeEnv) ∧
    (∀ (r : KindResolver) (jxEnv : ClusterEnv) (kubeEnv : KubeEnv) (out : CreateSMResult),
        KindResolver.createSecretManager r jxEnv kubeEnv = Except.ok out → out.kind ≠ "") := by
  refine ⟨?_, ?_, ?_⟩
  · intro requirements env k h
    rcases resolveKind_ok_cases requirements env k h with hk | hk
    · exact ⟨Or.inl hk, by rw [hk]; decide⟩
    · exact ⟨Or.inr hk, by rw [hk]; decide⟩
  · intro r jxEnv kubeEnv
    cases hrr : KindResolver.resolveRequirements r jxEnv with
    | mk req ns err =>
      simp only [KindResolver.createSecretManager, KindResolver.createSecretManagerNoDefault, hrr]
      cases err with
      | some e => rfl
      | none =>
        cases req with
        | none => rfl
        | some requirements =>
          by_cases hk : r.kind = ""
          · simp only [hk, if_true, if_pos]
            cases hres : (KindResolver.resolveKind requirements kubeEnv).1 with
            | error e => rfl
            | ok k =>
              rcases resolveKind_ok_cases requirements kubeEnv k hres with h2 | h2 <;>
                subst h2 <;> rfl
          · simp only [hk, if_false, if_neg, not_false_iff]
  · intro r jxEnv kubeEnv out h
    unfold KindResolver.createSecretManager at h
    cases hrr : KindResolver.resolveRequirements r jxEnv with
    | mk req ns err =>
      rw [hrr] at h
      cases err with
      | some e => simp at h
      | none =>
        cases req with
        | none => simp at h
        | some requirements =>
          by_cases hk : r.kind = ""
          · simp only [hk, if_true, if_pos] at h
            cases hres : (KindResolver.resolveKind requirements kubeEnv).1 with
            | error e => rw [hres] at h; simp at h
            | ok k =>
              rw [hres] at h
              simp at h
              rw [← h]
              by_cases hke : k = ""
              · simp [hke, KindLocal]
              · simp [hke]
          · simp only [hk, if_neg, if_false] at h
            simp at h
            rw [← h]
            exact hk

/-- Witness for C10 at concrete inputs: a GKE requirements document with no
marker secret resolves to the Google secret-manager kind, and a concrete
`CreateSecretManager` run agrees with the no-fallback variant and passes a
non-empty kind. -/
theorem resolveKind_nonEmpty_fallback_unreachable_witness :
    ((KindGoogleSecretManager = KindLocal ∨ KindGoogleSecretManager = KindGoogleSecretManager) ∧
        KindGoogleSecretManager ≠ "") ∧
    (KindResolver.createSecretManager ⟨"", "."⟩
        ⟨Except.ok "jx", fun _ => DevResult.notFoundErr,
         fun _ => (some ⟨⟨"gke", "w"⟩⟩, none), Except.ok "u"⟩
        ⟨Except.ok "jx", fun _ _ => GetSecretResult.notFound⟩ =
      KindResolver.createSecretManagerNoDefault ⟨"", "."⟩
        ⟨Except.ok "jx", fun _ => DevResult.notFoundErr,
         fun _ => (some ⟨⟨"gke", "w"⟩⟩, none), Except.ok "u"⟩
        ⟨Except.ok "jx", fun _ _ => GetSecretResult.notFound⟩) ∧
    (CreateSMResult.mk KindGoogleSecretManager ⟨⟨"gke", "w"⟩⟩).kind ≠ "" :=
  ⟨resolveKind_nonEmpty_fallback_unreachable.1 ⟨⟨"gke", "w"⟩⟩
      ⟨Except.ok "jx", fun _ _ => GetSecretResult.notFound⟩ KindGoogleSecretManager rfl,
   resolveKind_nonEmpty_fallback_unreachable.2.1 ⟨"", "."⟩
      ⟨Except.ok "jx", fun _ => DevResult.notFoundErr,
       fun _ => (some ⟨⟨"gke", "w"⟩⟩, none), Except.ok "u"⟩
      ⟨Except.ok "jx", fun _ _ => GetSecretResult.notFound⟩,
   resolveKind_nonEmpty_fallback_unreachable.2.2 ⟨"", "."⟩
      ⟨Except.ok "jx", fun _ => DevResult.notFoundErr,
       fun _ => (some ⟨⟨"gke", "w"⟩⟩, none), Except.ok "u"⟩
      ⟨Except.ok "jx", fun _ _ => GetSecretResult.notFound⟩
      ⟨KindGoogleSecretManager, ⟨⟨"gke", "w"⟩⟩⟩ rfl⟩

/-- C4 (amended): in `findRequirementsAndGitURL`, unparseable team-settings
requirements make resolution fall back to the requirements YAML file rather
than fail; in `KindResolver.resolveRequirements` only absent team-settings
requirements fall back — an unmarshal error is fatal there. -/
theorem requirementsResolution_unparseable_fallback :
    (∀ (o : HelmBootOptions) (env : ClusterEnv) (ns : String) (dev : DevEnv) (e : String)
        (req : RequirementsConfig),
        env.createJXClient = Except.ok ns →
        env.getDevEnvironment ns = DevResult.ok (some dev) →
        dev.teamSettings = TeamSettings.unparseable e →
        dev.sourceURL ≠ "" →
        env.loadRequirementsConfig o.dir = (some req, none) →
        (HelmBootOptions.findRequirementsAndGitURL o env).req = some req ∧
        (HelmBootOptions.findRequirementsAndGitURL o env).err = none) ∧
    (∀ (r : KindResolver) (env : ClusterEnv) (ns : String) (dev : DevEnv)
        (req : RequirementsConfig),
        env.createJXClient = Except.ok ns →
        env.getDevEnvironment ns = DevResult.ok (some dev) →
        dev.teamSettings = TeamSettings.absent →
        env.loadRequirementsConfig r.dir = (some req, none) →
        KindResolver.resolveRequirements r env = ⟨some req, ns, none⟩) ∧
    (∀ (r : KindResolver) (env : ClusterEnv) (ns : String) (dev : DevEnv) (e : String),
        env.createJXClient = Except.ok ns →
        env.getDevEnvironment ns = DevResult.ok (some dev) →
        dev.teamSettings = TeamSettings.unparseable e →
        KindResolver.resolveRequirements r env =
          ⟨none, ns,
           some ("failed to unmarshal requirements from 'dev' Environment in namespace "
                 ++ ns ++ ": " ++ e)⟩) := by
  refine ⟨?_, ?_, ?_⟩
  · intro o env ns dev e req hc hd ht hs hl
    by_cases hg : o.gitURL = ""
    · constructor <;>
        simp [HelmBootOptions.findRequirementsAndGitURL, hc, hd, ht, hl,
          getRequirementsConfigFromTeamSettings, findRequirementsGitURLFinish, hg, hs]
    · constructor <;>
        simp [HelmBootOptions.findRequirementsAndGitURL, hc, hd, ht, hl,
          getRequirementsConfigFromTeamSettings, findRequirementsGitURLFinish, hg]
  · intro r env ns dev req hc hd ht hl
    simp [KindResolver.resolveRequirements, hc, hd, ht,
      getRequirementsConfigFromTeamSettings, KindResolver.loadRequirementsFallback, hl]
  · intro r env ns dev e hc hd ht
    simp [KindResolver.resolveRequirements, hc, hd, ht,
      getRequirementsConfigFromTeamSettings]

/-- Counterexample to C4 as stated: a concrete environment where the dev
Environment is found with unparseable team settings and the requirements
YAML file would load successfully, yet `KindResolver.resolveRequirements`
fails instead of falling back. -/
theorem resolveRequirements_unparseable_fails_cex :
    KindResolver.resolveRequirements ⟨"", "."⟩
      ⟨Except.ok "jx",
       fun _ => DevResult.ok (some ⟨TeamSettings.unparseable "bad yaml", "https://example.com/repo.git"⟩),
       fun _ => (some ⟨⟨"gke", "c4"⟩⟩, none), Except.ok "u"⟩ =
      ⟨none, "jx",
       some "failed to unmarshal requirements from 'dev' Environment in namespace jx: bad yaml"⟩ ∧
    ClusterEnv.loadRequirementsConfig
      ⟨Except.ok "jx",
       fun _ => DevResult.ok (some ⟨TeamSettings.unparseable "bad yaml", "https://example.com/repo.git"⟩),
       fun _ => (some ⟨⟨"gke", "c4"⟩⟩, none), Except.ok "u"⟩ "." =
      (some ⟨⟨"gke", "c4"⟩⟩, none) :=
  ⟨by decide, rfl⟩

/-- Witness for C4 (amended) at concrete inputs for all three conjuncts. -/
theorem requirementsResolution_unparseable_fallback_witness :
    ((HelmBootOptions.findRequirementsAndGitURL ⟨"", "."⟩
        ⟨Except.ok "jx",
         fun _ => DevResult.ok (some ⟨TeamSettings.unparseable "oops", "https://git.example/x.git"⟩),
         fun _ => (some ⟨⟨"gke", "c4w"⟩⟩, none), Except.ok "u"⟩).req = some ⟨⟨"gke", "c4w"⟩⟩ ∧
      (HelmBootOptions.findRequirementsAndGitURL ⟨"", "."⟩
        ⟨Except.ok "jx",
         fun _ => DevResult.ok (some ⟨TeamSettings.unparseable "oops", "https://git.example/x.git"⟩),
         fun _ => (some ⟨⟨"gke", "c4w"⟩⟩, none), Except.ok "u"⟩).err = none) ∧
    KindResolver.resolveRequirements ⟨"", "."⟩
      ⟨Except.ok "jx",
       fun _ => DevResult.ok (some ⟨TeamSettings.absent, "https://git.example/x.git"⟩),
       fun _ => (some ⟨⟨"gke", "c4w"⟩⟩, none), Except.ok "u"⟩ =
      ⟨some ⟨⟨"gke", "c4w"⟩⟩, "jx", none⟩ ∧
    KindResolver.resolveRequirements ⟨"", "."⟩
      ⟨Except.ok "jx",
       fun _ => DevResult.ok (some ⟨TeamSettings.unparseable "oops", "https://git.example/x.git"⟩),
       fun _ => (some ⟨⟨"gke", "c4w"⟩⟩, none), Except.ok "u"⟩ =
      ⟨none, "jx",
       some ("failed to unmarshal requirements from 'dev' Environment in namespace "
             ++ "jx" ++ ": " ++ "oops")⟩ :=
  ⟨requirementsResolution_unparseable_fallback.1 ⟨"", "."⟩
      ⟨Except.ok "jx",
       fun _ => DevResult.ok (some ⟨TeamSettings.unparseable "oops", "https://git.example/x.git"⟩),
       fun _ => (some ⟨⟨"gke", "c4w"⟩⟩, none), Except.ok "u"⟩ "jx"
      ⟨TeamSettings.unparseable "oops", "https://git.example/x.git"⟩ "oops" ⟨⟨"gke", "c4w"⟩⟩
      rfl rfl rfl (by decide) rfl,
   requirementsResolution_unparseable_fallback.2.1 ⟨"", "."⟩
      ⟨Except.ok "jx",
       fun _ => DevResult.ok (some ⟨TeamSettings.absent, "https://git.example/x.git"⟩),
       fun _ => (some ⟨⟨"gke", "c4w"⟩⟩, none), Except.ok "u"⟩ "jx"
      ⟨TeamSettings.absent, "https://git.example/x.git"⟩ ⟨⟨"gke", "c4w"⟩⟩
      rfl rfl rfl rfl,
   requirementsResolution_unparseable_fallback.2.2 ⟨"", "."⟩
      ⟨Except.ok "jx",
       fun _ => DevResult.ok (some ⟨TeamSettings.unparseable "oops", "https://git.example/x.git"⟩),
       fun _ => (some ⟨⟨"gke", "c4w"⟩⟩, none), Except.ok "u"⟩ "jx"
      ⟨TeamSettings.unparseable "oops", "https://git.example/x.git"⟩ "oops"
      rfl rfl rfl⟩

/-- C5 (amended): when `TailLogs` returns a non-nil error the loop returns
nil (success) — it does not treat that as a failure; when `TailLogs` returns
nil the loop does not terminate but retries pod discovery and tailing at the
next iteration. -/
theorem tailLoop_error_returns_nil_else_retries :
    (∀ (env : TailEnv) (ns : String) (fuel i : Nat) (pod e : String),
        env.waitForReadyPod i = WaitPodResult.ok pod →
        pod ≠ "" →
        env.tailLogs i pod = some e →
        tailLoop env ns (fuel + 1) i = some (Except.ok ())) ∧
    (∀ (env : TailEnv) (ns : String) (fuel i : Nat) (pod : String),
        env.waitForReadyPod i = WaitPodResult.ok pod →
        pod ≠ "" →
        env.tailLogs i pod = none →
        tailLoop env ns (fuel + 1) i = tailLoop env ns fuel (i + 1)) := by
  constructor
  · intro env ns fuel i pod e hw hp ht
    simp [tailLoop, hw, hp, ht]
  · intro env ns fuel i pod hw hp ht
    simp [tailLoop, hw, hp, ht]

/-- Counterexample to C5 as stated: a concrete run where the `TailLogs`
call at iteration 0 returns (with a nil error), yet the loop does not
terminate with a nil result — it retries pod discovery and ends with a
later error. -/
theorem tailJobLogs_stream_end_retries_cex :
    HelmBootOptions.tailJobLogs
      ⟨Except.ok "jx",
       fun i => if i = 0 then WaitPodResult.ok "pod-0" else WaitPodResult.err "boom",
       fun _ _ => none⟩ 2 = some (Except.error "boom") ∧
    TailEnv.tailLogs
      ⟨Except.ok "jx",
       fun i => if i = 0 then WaitPodResult.ok "pod-0" else WaitPodResult.err "boom",
       fun _ _ => none⟩ 0 "pod-0" = none ∧
    TailEnv.waitForReadyPod
      ⟨Except.ok "jx",
       fun i => if i = 0 then WaitPodResult.ok "pod-0" else WaitPodResult.err "boom",
       fun _ _ => none⟩ 0 = WaitPodResult.ok "pod-0" :=
  ⟨rfl, rfl, rfl⟩

/-- Witness for C5 (amended) at a concrete environment: a `TailLogs` error
yields a nil return, and a nil `TailLogs` yields a retry. -/
theorem tailLoop_error_returns_nil_else_retries_witness :
    tailLoop ⟨Except.ok "jx", fun _ => WaitPodResult.ok "p", fun _ _ => some "EOF"⟩ "jx" 1 0 =
      some (Except.ok ()) ∧
    tailLoop ⟨Except.ok "jx", fun _ => WaitPodResult.ok "p", fun _ _ => none⟩ "jx" 3 0 =
      tailLoop ⟨Except.ok "jx", fun _ => WaitPodResult.ok "p", fun _ _ => none⟩ "jx" 2 1 :=
  ⟨tailLoop_error_returns_nil_else_retries.1
      ⟨Except.ok "jx", fun _ => WaitPodResult.ok "p", fun _ _ => some "EOF"⟩ "jx" 0 0 "p" "EOF"
      rfl (by decide) rfl,
   tailLoop_error_returns_nil_else_retries.2
      ⟨Except.ok "jx", fun _ => WaitPodResult.ok "p", fun _ _ => none⟩ "jx" 2 0 "p"
      rfl (by decide) rfl⟩

/-- C6: when the secret data holds only the well-known raw-YAML key with a
non-empty value, `generateSecretsYAML` writes that value verbatim, with no
dotted-path expansion and no `secrets` root. -/
theorem generateSecretsYAML_raw_verbatim (v : String) (h : v ≠ "") :
    generateSecretsYAML [(LocalSecretKey, v)] = SecretsOutput.raw v := by
  have hv : v.length ≠ 0 := by
    intro hl
    apply h
    cases v with
    | mk data =>
      simp [String.length] at hl
      subst hl
      rfl
  simp [generateSecretsYAML, lookupData, hv]

/-- Witness for C6 at a concrete raw-YAML value. -/
theorem generateSecretsYAML_raw_verbatim_witness :
    generateSecretsYAML [(LocalSecretKey, "cluster:\n  name: x\n")] =
      SecretsOutput.raw "cluster:\n  name: x\n" :=
  generateSecretsYAML_raw_verbatim "cluster:\n  name: x\n" (by decide)

/-- C7: when the secret data does not contain the raw-YAML key (or contains
it with an empty value), `generateSecretsYAML` produces a document whose
single top-level key is `secrets`, holding every data key expanded by dotted
path; in particular a lone key `a.b` with value `v` becomes
`secrets: \x7ba: \x7bb: v\x7d\x7d`. -/
theorem generateSecretsYAML_dotted_expansion (data : List (String × String))
    (h : lookupData data LocalSecretKey = "") :
    generateSecretsYAML data =
      SecretsOutput.yamlDoc (YVal.map [("secrets", YVal.map (expandSecrets data))]) ∧
    (∀ v : String, expandSecrets [("a.b", v)] = [("a", YVal.map [("b", YVal.str v)])]) := by
  constructor
  · simp [generateSecretsYAML, h]
  · intro v
    rfl

/-- Witness for C7 at concrete dotted-key data. -/
theorem generateSecretsYAML_dotted_expansion_witness :
    generateSecretsYAML [("a.b", "v")] =
      SecretsOutput.yamlDoc
        (YVal.map [("secrets", YVal.map (expandSecrets [("a.b", "v")]))]) ∧
    (∀ v : String, expandSecrets [("a.b", v)] = [("a", YVal.map [("b", YVal.str v)])]) :=
  generateSecretsYAML_dotted_expansion [("a.b", "v")] (by decide)

/-- C8: when the configured secret source yields no data — the secret file
does not exist, the loaded file parses to an empty data map, or the
in-cluster Secret has an empty data map — `YAMLOptions.Run` returns an error
and performs no file write. -/
theorem yamlRun_noData_no_write (o : YAMLOptions) (env : SecretsEnv) (ns : String)
    (hns : env.createKubeClient = Except.ok ns)
    (h : (YAMLOptions.effSecretFile o env ≠ "" ∧
            (env.fileExists (YAMLOptions.effSecretFile o env) = Except.ok false ∨
             (∃ c, env.fileExists (YAMLOptions.effSecretFile o env) = Except.ok true ∧
                   env.readFile (YAMLOptions.effSecretFile o env) = Except.ok c ∧
                   parseSecretLines c = []))) ∨
         (YAMLOptions.effSecretFile o env = "" ∧
            env.getSecret ns (YAMLOptions.effSecretName o env) = SecretDataResult.ok [])) :
    (∃ e, (YAMLOptions.run o env).1 = some e) ∧ (YAMLOptions.run o env).2 = [] := by
  obtain ⟨hf, hmiss | ⟨c, hex, hread, hparse⟩⟩ | ⟨hf, hsec⟩ := h
  · constructor <;>
      simp [YAMLOptions.run, hns, hf, loadSecretFile, hmiss]
  · constructor <;>
      simp [YAMLOptions.run, hns, hf, loadSecretFile, hex, hread, hparse]
  · constructor <;>
      simp [YAMLOptions.run, hns, hf, hsec]

/-- Witness for C8 at concrete options and environments: a missing secret
file, an empty secret file, and an empty in-cluster Secret. -/
theorem yamlRun_noData_no_write_witness :
    ((∃ e, (YAMLOptions.run ⟨"", "s.txt", "out.yaml"⟩
        ⟨Except.ok "jx", "", "", "", fun _ => Except.ok false, fun _ => Except.error "r",
         fun _ _ => SecretDataResult.ok []⟩).1 = some e) ∧
      (YAMLOptions.run ⟨"", "s.txt", "out.yaml"⟩
        ⟨Except.ok "jx", "", "", "", fun _ => Except.ok false, fun _ => Except.error "r",
         fun _ _ => SecretDataResult.ok []⟩).2 = []) ∧
    ((∃ e, (YAMLOptions.run ⟨"", "s.txt", "out.yaml"⟩
        ⟨Except.ok "jx", "", "", "", fun _ => Except.ok true, fun _ => Except.ok "# only\n",
         fun _ _ => SecretDataResult.ok []⟩).1 = some e) ∧
      (YAMLOptions.run ⟨"", "s.txt", "out.yaml"⟩
        ⟨Except.ok "jx", "", "", "", fun _ => Except.ok true, fun _ => Except.ok "# only\n",
         fun _ _ => SecretDataResult.ok []⟩).2 = []) ∧
    ((∃ e, (YAMLOptions.run ⟨"", "", "out.yaml"⟩
        ⟨Except.ok "jx", "", "", "", fun _ => Except.ok true, fun _ => Except.ok "",
         fun _ _ => SecretDataResult.ok []⟩).1 = some e) ∧
      (YAMLOptions.run ⟨"", "", "out.yaml"⟩
        ⟨Except.ok "jx", "", "", "", fun _ => Except.ok true, fun _ => Except.ok "",
         fun _ _ => SecretDataResult.ok []⟩).2 = []) :=
  ⟨yamlRun_noData_no_write ⟨"", "s.txt", "out.yaml"⟩
      ⟨Except.ok "jx", "", "", "", fun _ => Except.ok false, fun _ => Except.error "r",
       fun _ _ => SecretDataResult.ok []⟩ "jx" rfl
      (Or.inl ⟨by decide, Or.inl rfl⟩),
   yamlRun_noData_no_write ⟨"", "s.txt", "out.yaml"⟩
      ⟨Except.ok "jx", "", "", "", fun _ => Except.ok true, fun _ => Except.ok "# only\n",
       fun _ _ => SecretDataResult.ok []⟩ "jx" rfl
      (Or.inl ⟨by decide, Or.inr ⟨"# only\n", rfl, rfl, by decide⟩⟩),
   yamlRun_noData_no_write ⟨"", "", "out.yaml"⟩
      ⟨Except.ok "jx", "", "", "", fun _ => Except.ok true, fun _ => Except.ok "",
       fun _ _ => SecretDataResult.ok []⟩ "jx" rfl
      (Or.inr ⟨rfl, rfl⟩)⟩

end Helmboot
